import Mathlib

/-!
Shallow embedding of the message_bender bot (src/main.rs, src/interaction.rs,
src/interaction/edit.rs, src/webhooks.rs): data model, eligibility filter,
replication engine, interaction pipeline and the per-channel webhook cache,
with theorems checking the specification claims against the code.
-/

namespace MessageBender

/-- Message structural types from the platform SDK that the code matches on;
only Regular and Reply are replicable, the rest stand for the remaining
variants of the MessageType enum. -/
inductive MessageType where
  | Regular
  | Reply
  | Call
  | ChannelMessagePinned
  | GuildMemberJoin
  | ThreadCreated
deriving DecidableEq, Repr

/-- Permission flags used by the code (Permissions bitflags in the source);
other stands for any further flag. -/
inductive Permission where
  | manageMessages
  | manageWebhooks
  | other
deriving DecidableEq, Repr

/-- Message author as seen on the full Message (twilight User embedded in
Message): id plus the bot flag the eligibility filter reads. -/
structure MessageAuthor where
  id : Nat
  bot : Bool
  name : String
deriving DecidableEq, Repr

/-- An attachment; the replay loop only reads its url. -/
structure Attachment where
  url : String
deriving DecidableEq, Repr

/-- A full platform message as received on the command entry point
(twilight Message), restricted to the fields the code reads. -/
structure Message where
  activity : Option Nat
  application : Option Nat
  application_id : Option Nat
  attachments : List Attachment
  author : MessageAuthor
  components : List Nat
  content : String
  embeds : List Nat
  guild_id : Option Nat
  id : Nat
  interaction : Option Nat
  kind : MessageType
  pinned : Bool
  reactions : List Nat
  sticker_items : List Nat
  webhook_id : Option Nat
deriving DecidableEq, Repr

/-- A message snapshot from the in-memory cache
(twilight_cache_inmemory CachedMessage): it stores the author only as an id,
so the author bot flag is not available on it. -/
structure CachedMessage where
  activity : Option Nat
  application : Option Nat
  application_id : Option Nat
  attachments : List Attachment
  author : Nat
  components : List Nat
  content : String
  embeds : List Nat
  guild_id : Option Nat
  id : Nat
  interaction : Option Nat
  kind : MessageType
  pinned : Bool
  reactions : List Nat
  sticker_items : List Nat
  webhook_id : Option Nat
deriving DecidableEq, Repr

/-- Projection of a full Message to its cache snapshot, mirroring the cache
crate: the author field keeps only the id, dropping the bot flag. -/
def toCachedMessage (message : Message) : CachedMessage :=
  { activity := message.activity
    application := message.application
    application_id := message.application_id
    attachments := message.attachments
    author := message.author.id
    components := message.components
    content := message.content
    embeds := message.embeds
    guild_id := message.guild_id
    id := message.id
    interaction := message.interaction
    kind := message.kind
    pinned := message.pinned
    reactions := message.reactions
    sticker_items := message.sticker_items
    webhook_id := message.webhook_id }

/-- src/interaction/edit.rs, message_is_weird: the eligibility filter on the
command entry point, over a full Message. -/
def message_is_weird (message : Message) : Bool :=
  message.activity.isSome
    || message.application.isSome
    || message.application_id.isSome
    || message.author.bot
    || !message.components.isEmpty
    || !message.embeds.isEmpty
    || message.interaction.isSome
    || !(match message.kind with
         | MessageType.Regular => true
         | MessageType.Reply => true
         | _ => false)
    || message.pinned
    || !message.reactions.isEmpty
    || !message.sticker_items.isEmpty
    || message.webhook_id.isSome

/-- src/interaction/edit.rs, cached_message_is_weird: the eligibility filter
on the replay path, over a cache snapshot; it has no author-bot test because
the snapshot stores the author only as an id. -/
def cached_message_is_weird (message : CachedMessage) : Bool :=
  message.activity.isSome
    || message.application.isSome
    || message.application_id.isSome
    || !message.components.isEmpty
    || !message.embeds.isEmpty
    || message.interaction.isSome
    || !(match message.kind with
         | MessageType.Regular => true
         | MessageType.Reply => true
         | _ => false)
    || message.pinned
    || !message.reactions.isEmpty
    || !message.sticker_items.isEmpty
    || message.webhook_id.isSome

/-- Modelled from the spec: the eligibility disjunction exactly as section 4.2
words it, over a full Message, for comparison with the source predicates. -/
def specWeird (message : Message) : Bool :=
  (message.activity.isSome || message.application.isSome
      || message.application_id.isSome)
    || message.author.bot
    || !message.components.isEmpty
    || !message.embeds.isEmpty
    || message.interaction.isSome
    || !(match message.kind with
         | MessageType.Regular => true
         | MessageType.Reply => true
         | _ => false)
    || message.pinned
    || !message.reactions.isEmpty
    || !message.sticker_items.isEmpty
    || message.webhook_id.isSome

/-- Modelled from the spec: the same disjunction with the author-bot test
removed, which is what a cache snapshot can actually decide. -/
def specWeirdNoBot (message : Message) : Bool :=
  (message.activity.isSome || message.application.isSome
      || message.application_id.isSome)
    || !message.components.isEmpty
    || !message.embeds.isEmpty
    || message.interaction.isSome
    || !(match message.kind with
         | MessageType.Regular => true
         | MessageType.Reply => true
         | _ => false)
    || message.pinned
    || !message.reactions.isEmpty
    || !message.sticker_items.isEmpty
    || message.webhook_id.isSome

/-- A plain message authored by a bot: every structural field empty, the kind
Regular, but the author bot flag set. -/
def botMessage : Message :=
  { activity := none
    application := none
    application_id := none
    attachments := []
    author := { id := 7, bot := true, name := "botty" }
    components := []
    content := "hi"
    embeds := []
    guild_id := some 1
    id := 42
    interaction := none
    kind := MessageType.Regular
    pinned := false
    reactions := []
    sticker_items := []
    webhook_id := none }

/-- Channel kinds the code distinguishes; the three thread kinds make
is_thread true. -/
inductive ChannelKind where
  | GuildText
  | PublicThread
  | PrivateThread
  | NewsThread
deriving DecidableEq, Repr

/-- twilight ChannelType is_thread. -/
def ChannelKind.is_thread : ChannelKind → Bool
  | ChannelKind.PublicThread => true
  | ChannelKind.PrivateThread => true
  | ChannelKind.NewsThread => true
  | _ => false

/-- A channel snapshot from the in-memory cache, restricted to the fields
modal_submit reads. -/
structure CachedChannel where
  id : Nat
  kind : ChannelKind
  parent_id : Option Nat
deriving DecidableEq, Repr

/-- A cached guild member; the replay loop only reads the nick. -/
structure Member where
  nick : Option String
deriving DecidableEq, Repr

/-- A cached user; the replay loop only reads the name. -/
structure User where
  name : String
deriving DecidableEq, Repr

/-- twilight PartialMember as carried on interactions, restricted to the
fields the code reads: nick, optional embedded user, optional permissions. -/
structure PartialMember where
  nick : Option String
  user : Option User
  permissions : Option (List Permission)
deriving DecidableEq, Repr

/-- The read-model caches modal_submit consults (twilight InMemoryCache):
channels, per-channel message id lists (newest first), message snapshots,
members and users. -/
structure BotCache where
  channel : Nat → Option CachedChannel
  channel_messages : Nat → Option (List Nat)
  message : Nat → Option CachedMessage
  member : Nat → Nat → Option Member
  user : Nat → Option User

/-- The form submission event, with the component extraction and the custom
id parse already performed: edit_message_id is the parse of the single text
input custom id (which the command put there as the target message id) and
value is the submitted replacement text. -/
structure Modal where
  channel_id : Nat
  edit_message_id : Nat
  value : String
  member : Option PartialMember
deriving DecidableEq, Repr

/-- Success oracle for the remote calls of one session: each webhook
execution (keyed by the id of the original message being re-posted), the
deferred acknowledgment, the webhook acquisition, the delete and the
terminal update can independently fail. -/
structure Oracle where
  deferOk : Bool
  webhookOk : Bool
  executeOk : Nat → Bool
  deleteOk : Bool
  updateOk : Bool

/-- Errors of the edit handler (Error enum in src/interaction/edit.rs). -/
inductive EditError where
  | MessageWeird
  | MessageTooLong
  | NoCachedMessages
deriving DecidableEq, Repr

/-- User-facing errors (Error enum in src/interaction.rs). -/
inductive UserError where
  | Edit (e : EditError)
  | UserMissingPermissions (missing : List Permission)
  | SelfMissingPermissions (missing : List Permission)
deriving DecidableEq, Repr

/-- Any error a handler can return: user errors are the downcastable Error
enum, other carries the description of an anyhow error. -/
inductive BotError where
  | user (e : UserError)
  | other (description : String)
deriving DecidableEq, Repr

/-- One remote call issued by the edit flow, in issue order. The
execute_webhook event records the id of the original message being
re-posted to identify the call; the platform call itself carries only the
thread id, content and username. -/
inductive RemoteCall where
  | ack
  | execute_webhook (thread_id : Option Nat) (message_id : Nat)
      (content : String) (username : String)
  | delete_message (channel_id : Nat) (message_id : Nat)
  | delete_messages (channel_id : Nat) (message_ids : List Nat)
  | update_response (content : String)
  | create_modal (custom_id : Nat) (prefill : String)
deriving DecidableEq, Repr

/-- The reply on a fully replicated window. -/
def doneReply : String := "done!"

/-- The reply once any weird message was dropped from the window. -/
def skippedWeirdReply : String :=
  "done! there was a weird message sent after the message to edit so i left it alone"

/-- The id walk of modal_submit: take the newest-first cached id list up to
(excluding) the target id, then chain the target id itself. -/
def unfilteredIds (channel_messages : List Nat) (edit_message_id : Nat) : List Nat :=
  channel_messages.takeWhile (fun id => id != edit_message_id) ++ [edit_message_id]

/-- Look every id of the walk up in the message cache, failing on the first
absent one (the collect over Result in the source). -/
def collectMessages (cache : BotCache) : List Nat → Option (List CachedMessage)
  | [] => some []
  | id :: rest =>
    match cache.message id with
    | none => none
    | some m =>
      match collectMessages cache rest with
      | none => none
      | some ms => some (m :: ms)

/-- The unfiltered window of modal_submit: the cached newest-first ids walked
back to the target and resolved to message snapshots. -/
def modalWindow (cache : BotCache) (modal : Modal) : Option (List CachedMessage) :=
  match cache.channel_messages modal.channel_id with
  | none => none
  | some ids => collectMessages cache (unfilteredIds ids modal.edit_message_id)

/-- The replay list of modal_submit: the unfiltered window reversed to oldest
first with every weird message dropped individually. -/
def modalMessages (unfiltered : List CachedMessage) : List CachedMessage :=
  unfiltered.reverse.filter (fun m => !cached_message_is_weird m)

/-- The terminal reply of modal_submit: the skipped-message wording exactly
when some message of the window was weird. -/
def modalReply (unfiltered : List CachedMessage) : String :=
  if unfiltered.any (fun m => cached_message_is_weird m) then skippedWeirdReply
  else doneReply

/-- Content built for a re-post: the original content with each attachment
url appended on its own line. -/
def builtContent (message : CachedMessage) : String :=
  message.attachments.foldl (fun acc a => acc ++ "\n" ++ a.url) message.content

/-- Username shown for a re-posted message: the member nick, else the user
name (MinimalMember in the source). -/
def replayUsername (member : Member) (user : User) : String :=
  member.nick.getD user.name

/-- Username annotation put on the edited message. -/
def editedUsername (authorName editorName : String) : String :=
  authorName ++ " (edited by " ++ editorName ++ ")"

/-- One iteration body of the re-post loop of modal_submit: resolve the
author member and user from the cache, build the content (substituting the
submitted value and annotating the username on the target message) and
return the webhook execution call, or the first lookup error. -/
def replayCall (cache : BotCache) (modal : Modal) (edit_message_id : Nat)
    (thread_id : Option Nat) (message : CachedMessage) :
    Except BotError RemoteCall :=
  match message.guild_id with
  | none => Except.error (BotError.other "message does not have a guild id")
  | some gid =>
    match cache.member gid message.author with
    | none => Except.error (BotError.other "member is not cached")
    | some member =>
      match cache.user message.author with
      | none => Except.error (BotError.other "message author user is not cached")
      | some user =>
        if message.id == edit_message_id then
          match modal.member with
          | none =>
            Except.error (BotError.other "modal interaction does not have a member")
          | some imember =>
            match imember.user with
            | none =>
              Except.error
                (BotError.other "modal interaction member does not include user info")
            | some iuser =>
              Except.ok (RemoteCall.execute_webhook thread_id message.id modal.value
                (editedUsername (replayUsername member user)
                  (imember.nick.getD iuser.name)))
        else
          Except.ok (RemoteCall.execute_webhook thread_id message.id
            (builtContent message) (replayUsername member user))

/-- The re-post loop of modal_submit over the filtered message list, oldest
first: each iteration issues the call built by replayCall; the first failure
(lookup or remote) stops the loop with the error. Returns the calls issued
and the error, if any. -/
def runReplay (cache : BotCache) (modal : Modal) (edit_message_id : Nat)
    (thread_id : Option Nat) (oracle : Oracle) :
    List CachedMessage → List RemoteCall × Option BotError
  | [] => ([], none)
  | message :: rest =>
    match replayCall cache modal edit_message_id thread_id message with
    | Except.error e => ([], some e)
    | Except.ok call =>
      if oracle.executeOk message.id then
        let next := runReplay cache modal edit_message_id thread_id oracle rest
        (call :: next.1, next.2)
      else ([call], some (BotError.other "webhook execution failed"))

/-- The delete stage of modal_submit: a single delete when exactly one
message was replicated (its head lookup mirrors the first() of the source
and cannot miss there), a batch delete of all replicated ids otherwise. -/
def deleteStep (channel_id : Nat) (messages : List CachedMessage) : Option RemoteCall :=
  if messages.length == 1 then
    match messages.head? with
    | some m => some (RemoteCall.delete_message channel_id m.id)
    | none => none
  else some (RemoteCall.delete_messages channel_id (messages.map (fun m => m.id)))

/-- The replication stage of modal_submit, after the channel was resolved:
acquire the webhook (modeled by the oracle only: the source passes the
resolved parent channel id to the cache there), walk the cached ids from
newest back to the target, reverse to oldest first and drop each weird
message individually, re-post every survivor through the webhook, then
delete the originals through deleteStep and write the terminal reply.
Returns the calls issued in order and the error, if any. -/
def modalReplicate (cache : BotCache) (modal : Modal) (oracle : Oracle)
    (thread_id : Option Nat) : List RemoteCall × Option BotError :=
  if oracle.webhookOk then
    match cache.channel_messages modal.channel_id with
    | none => ([], some (BotError.other "channel messages are not cached"))
    | some ids =>
      match collectMessages cache (unfilteredIds ids modal.edit_message_id) with
      | none => ([], some (BotError.other "message is not cached"))
      | some unfiltered =>
        let messages := modalMessages unfiltered
        let looped :=
          runReplay cache modal modal.edit_message_id thread_id oracle messages
        match looped.2 with
        | some e => (looped.1, some e)
        | none =>
          match deleteStep modal.channel_id messages with
          | none => (looped.1, some (BotError.other "list of messages is empty"))
          | some dc =>
            if oracle.deleteOk then
              if oracle.updateOk then
                (looped.1 ++ [dc, RemoteCall.update_response (modalReply unfiltered)],
                  none)
              else
                (looped.1 ++ [dc, RemoteCall.update_response (modalReply unfiltered)],
                  some (BotError.other "terminal update failed"))
            else (looped.1 ++ [dc], some (BotError.other "delete failed"))
  else ([], some (BotError.other "could not get or create the webhook"))

/-- src/interaction/edit.rs, modal_submit: defer, resolve the channel (a
thread keeps its id only for message operations, its parent becomes the
webhook channel), then run the replication stage. Returns the calls issued
in order and the error, if any. -/
def modal_submit (cache : BotCache) (modal : Modal) (oracle : Oracle) :
    List RemoteCall × Option BotError :=
  if oracle.deferOk then
    match cache.channel modal.channel_id with
    | none => ([RemoteCall.ack], some (BotError.other "channel not cached"))
    | some channel =>
      let resolved : Option (Nat × Option Nat) :=
        if channel.kind.is_thread then
          match channel.parent_id with
          | none => none
          | some parent => some (parent, some channel.id)
        else some (channel.id, none)
      match resolved with
      | none =>
        ([RemoteCall.ack], some (BotError.other "thread channel does not have a parent"))
      | some (_, thread_id) =>
        let r := modalReplicate cache modal oracle thread_id
        (RemoteCall.ack :: r.1, r.2)
  else ([RemoteCall.ack], some (BotError.other "deferred acknowledgment failed"))

/-- Is a call a webhook re-post. -/
def isExecute : RemoteCall → Bool
  | RemoteCall.execute_webhook _ _ _ _ => true
  | _ => false

/-- Is a call a deletion (single or batch). -/
def isDelete : RemoteCall → Bool
  | RemoteCall.delete_message _ _ => true
  | RemoteCall.delete_messages _ _ => true
  | _ => false

/-- The ids of the original messages re-posted by a trace, in order. -/
def executedIds (trace : List RemoteCall) : List Nat :=
  trace.filterMap fun c =>
    match c with
    | RemoteCall.execute_webhook _ id _ _ => some id
    | _ => none

/-- The ids one call deletes. -/
def deleteTargets : RemoteCall → List Nat
  | RemoteCall.delete_message _ id => [id]
  | RemoteCall.delete_messages _ ids => ids
  | _ => []

/-- The ids deleted by a trace (single and batch deletes together). -/
def deletedIds (trace : List RemoteCall) : List Nat :=
  trace.flatMap deleteTargets

/-- No webhook re-post call occurs after any delete call of the trace. -/
def noExecuteAfterDelete : List RemoteCall → Bool
  | [] => true
  | c :: rest =>
    if isDelete c then
      rest.all (fun d => !isExecute d) && noExecuteAfterDelete rest
    else noExecuteAfterDelete rest

/-- Interaction types the pipeline can receive. -/
inductive InteractionType where
  | Ping
  | ApplicationCommand
  | MessageComponent
  | ModalSubmit
  | ApplicationCommandAutocomplete
deriving DecidableEq, Repr

/-- Interaction response kinds the code uses. -/
inductive InteractionResponseType where
  | ChannelMessageWithSource
  | DeferredChannelMessageWithSource
  | DeferredUpdateMessage
  | Modal
deriving DecidableEq, Repr

/-- src/interaction.rs, defer: the deferred response kind chosen per
interaction type; a command defers with a new visible reply, a modal submit
defers with an update of the existing message, and every other type
(message components included) gets no acknowledgment call at all. -/
def deferResponseKind : InteractionType → Option InteractionResponseType
  | InteractionType.ApplicationCommand =>
    some InteractionResponseType.DeferredChannelMessageWithSource
  | InteractionType.ModalSubmit => some InteractionResponseType.DeferredUpdateMessage
  | _ => none

/-- Display text of the edit errors (src/interaction/edit.rs Error). -/
def editErrorMessage : EditError → String
  | EditError.MessageWeird =>
    "this message is weird, it has something i cant recreate like a reaction.. sorry"
  | EditError.MessageTooLong =>
    "this message is too long, someone with nitro sent it but bots dont have nitro sadly"
  | EditError.NoCachedMessages =>
    "i dont know any messages here yet, i can only see messages sent after i joined or got updated.. sorry"

/-- The lowercase space-separated rendering of one permission flag. -/
def permissionName : Permission → String
  | Permission.manageMessages => "manage messages"
  | Permission.manageWebhooks => "manage webhooks"
  | Permission.other => "other"

/-- Rendering of a missing flag set, as the debug format of the bitflags. -/
def permissionsDisplay (flags : List Permission) : String :=
  String.intercalate " | " (flags.map permissionName)

/-- Display text of the user-facing errors (src/interaction.rs Error). -/
def userErrorMessage : UserError → String
  | UserError.Edit e => editErrorMessage e
  | UserError.UserMissingPermissions missing =>
    "you don\x27t have these required permissions:\n**" ++ permissionsDisplay missing ++ "**"
  | UserError.SelfMissingPermissions missing =>
    "please give me these permissions first:\n**" ++ permissionsDisplay missing ++ "**"

/-- The fixed generic apology written on unrecognized errors. -/
def genericApology : String :=
  "an error happened :( i let my developer know hopefully they\x27ll fix it soon!"

/-- Result of the dispatched handler, abstracting its internal calls. -/
inductive DispatchOutcome where
  | ok
  | failed (e : BotError)
deriving DecidableEq, Repr

/-- Observable events of the interaction pipeline, in order. -/
inductive PipelineEvent where
  | create_response (kind : InteractionResponseType)
  | dispatched
  | update_response (content : String)
  | owner_message (content : String)
deriving DecidableEq, Repr

/-- src/interaction.rs, handle: defer first, then dispatch by interaction
type; a failing handler is mapped to one terminal update carrying the user
error text (error swallowed) or the generic apology (error re-raised);
unknown interaction types return early with no terminal update. The outcome
parameter stands for the dispatched handler result and deferOk and updateOk
for the success of the acknowledgment and terminal update calls. -/
def handle (kind : InteractionType) (deferOk updateOk : Bool)
    (outcome : DispatchOutcome) : List PipelineEvent × Option BotError :=
  let ackTrace : List PipelineEvent :=
    match deferResponseKind kind with
    | some rt => [PipelineEvent.create_response rt]
    | none => []
  if (deferResponseKind kind).isSome && !deferOk then
    (ackTrace, some (BotError.other "acknowledgment failed"))
  else
    match kind with
    | InteractionType.ApplicationCommand | InteractionType.MessageComponent
    | InteractionType.ModalSubmit =>
      match outcome with
      | DispatchOutcome.ok => (ackTrace ++ [PipelineEvent.dispatched], none)
      | DispatchOutcome.failed (BotError.user e) =>
        let t := ackTrace ++ [PipelineEvent.dispatched,
          PipelineEvent.update_response (userErrorMessage e)]
        if updateOk then (t, none)
        else (t, some (BotError.other "terminal update failed"))
      | DispatchOutcome.failed (BotError.other d) =>
        let t := ackTrace ++ [PipelineEvent.dispatched,
          PipelineEvent.update_response genericApology]
        if updateOk then (t, some (BotError.other d))
        else (t, some (BotError.other "terminal update failed"))
    | _ => (ackTrace, some (BotError.other "unknown interaction"))

/-- src/main.rs, handle_event with handle_error: any error escaping handle
is sent to the owner channel out-of-band. -/
def handle_event (kind : InteractionType) (deferOk updateOk : Bool)
    (outcome : DispatchOutcome) : List PipelineEvent :=
  let h := handle kind deferOk updateOk outcome
  match h.2 with
  | some (BotError.other d) =>
    h.1 ++ [PipelineEvent.owner_message ("an error occurred: " ++ d)]
  | some (BotError.user e) =>
    h.1 ++ [PipelineEvent.owner_message ("an error occurred: " ++ userErrorMessage e)]
  | none => h.1

/-- src/interaction.rs, check_self_permissions: the flags of the required
set that the agent itself is missing in the channel; the none case stands
for a failing permission computation. -/
def check_self_permissions (selfPermissions : Option (List Permission))
    (required : List Permission) : Option BotError :=
  match selfPermissions with
  | none => some (BotError.other "could not compute own permissions")
  | some held =>
    let missing := required.filter (fun p => !held.contains p)
    if missing.isEmpty then none
    else some (BotError.user (UserError.SelfMissingPermissions missing))

/-- src/interaction.rs, check_member_permissions: the flags of the required
set that the acting member is missing; this function has no caller anywhere
in the sources. -/
def check_member_permissions (member : PartialMember)
    (required : List Permission) : Option BotError :=
  match member.permissions with
  | none => some (BotError.other "member permissions are not present")
  | some held =>
    let missing := required.filter (fun p => !held.contains p)
    if missing.isEmpty then none
    else some (BotError.user (UserError.UserMissingPermissions missing))

/-- The command event, with the resolved target message and the acting
member as the platform delivers them. -/
structure CommandData where
  channel_id : Nat
  member : Option PartialMember
  resolved_message : Option Message
deriving DecidableEq, Repr

/-- src/interaction/edit.rs, _command: check the agent own permissions,
extract the resolved target message, then in order the cached-message
check, the length check and the weird check, and finally open the edit form
prefilled with the target content. The acting member carried on the command
is never read. Returns the calls issued and the error, if any. -/
def _command (selfPermissions : Option (List Permission)) (cache : BotCache)
    (command : CommandData) : List RemoteCall × Option BotError :=
  match check_self_permissions selfPermissions
      [Permission.manageMessages, Permission.manageWebhooks] with
  | some e => ([], some e)
  | none =>
    match command.resolved_message with
    | none => ([], some (BotError.other "command data does not have resolved data"))
    | some message =>
      if (cache.message message.id).isNone then
        ([], some (BotError.user (UserError.Edit EditError.NoCachedMessages)))
      else if message.content.length > 2000 then
        ([], some (BotError.user (UserError.Edit EditError.MessageTooLong)))
      else if message_is_weird message then
        ([], some (BotError.user (UserError.Edit EditError.MessageWeird)))
      else
        ([RemoteCall.create_modal message.id message.content], none)

/-- Shared state of the webhook cache and the remote side for one channel:
the map entry, the remote webhooks owned by this application, the count of
creation calls, and a fresh id counter. -/
structure WebhookState where
  cacheEntry : Option Nat
  remote : List Nat
  createCount : Nat
  nextId : Nat
deriving DecidableEq, Repr

/-- Program counter of one acquire call (the webhook function in
src/webhooks.rs): the cache get, the remote listing with the owned-webhook
search, the creation, the insert and the final cache read-back are separate
atomic steps, matching the await points and the individual map operations
of the source. -/
inductive AcquirePc where
  | start
  | listRemote
  | createRemote
  | insertEntry (webhookId : Nat)
  | readBack
  | finished (result : Option Nat)
deriving DecidableEq, Repr

/-- One atomic step of one acquire call against the shared state. -/
def acquireStep (s : WebhookState) : AcquirePc → WebhookState × AcquirePc
  | AcquirePc.start =>
    match s.cacheEntry with
    | some w => (s, AcquirePc.finished (some w))
    | none => (s, AcquirePc.listRemote)
  | AcquirePc.listRemote =>
    match s.remote.head? with
    | some w => (s, AcquirePc.insertEntry w)
    | none => (s, AcquirePc.createRemote)
  | AcquirePc.createRemote =>
    ({ s with
        remote := s.remote ++ [s.nextId],
        createCount := s.createCount + 1,
        nextId := s.nextId + 1 },
      AcquirePc.insertEntry s.nextId)
  | AcquirePc.insertEntry w => ({ s with cacheEntry := some w }, AcquirePc.readBack)
  | AcquirePc.readBack => (s, AcquirePc.finished s.cacheEntry)
  | AcquirePc.finished r => (s, AcquirePc.finished r)

/-- Two concurrent acquire calls for the same channel. -/
structure AcquirePair where
  shared : WebhookState
  first : AcquirePc
  second : AcquirePc
deriving DecidableEq, Repr

/-- One step of the chosen task; true picks the first task. -/
def pairStep (sys : AcquirePair) (pickFirst : Bool) : AcquirePair :=
  if pickFirst then
    let r := acquireStep sys.shared sys.first
    { sys with shared := r.1, first := r.2 }
  else
    let r := acquireStep sys.shared sys.second
    { sys with shared := r.1, second := r.2 }

/-- Run a whole interleaving schedule. -/
def runSchedule (sys : AcquirePair) : List Bool → AcquirePair
  | [] => sys
  | pick :: rest => runSchedule (pairStep sys pick) rest

/-- Cold start: empty cache, no remote webhook, no creation done yet. -/
def coldPair : AcquirePair :=
  { shared := { cacheEntry := none, remote := [], createCount := 0, nextId := 1 }
    first := AcquirePc.start
    second := AcquirePc.start }

/-- A default snapshot used only as the getD fallback below. -/
def defaultCached : CachedMessage :=
  { activity := none
    application := none
    application_id := none
    attachments := []
    author := 0
    components := []
    content := ""
    embeds := []
    guild_id := none
    id := 0
    interaction := none
    kind := MessageType.Regular
    pinned := false
    reactions := []
    sticker_items := []
    webhook_id := none }

/-- The snapshot stored for an id, defaulting when absent. -/
def theMessage (cache : BotCache) (id : Nat) : CachedMessage :=
  (cache.message id).getD defaultCached

/-- Whether the snapshot stored for an id is weird; an absent snapshot
counts as weird (it cannot be replayed). -/
def weirdAt (cache : BotCache) (id : Nat) : Bool :=
  match cache.message id with
  | some m => cached_message_is_weird m
  | none => true

/-- The cache lookups the replay loop needs for one message all succeed. -/
def replayOk (cache : BotCache) (m : CachedMessage) : Bool :=
  (match m.guild_id with
   | none => false
   | some g => (cache.member g m.author).isSome)
    && (cache.user m.author).isSome

/-- The modal carries a member that includes user info. -/
def modalMemberOk (modal : Modal) : Bool :=
  match modal.member with
  | none => false
  | some im => im.user.isSome

/-- The snapshot stored for an id exists, records that same id, and its
replay lookups succeed. -/
def messageOkAt (cache : BotCache) (id : Nat) : Bool :=
  match cache.message id with
  | none => false
  | some m => (m.id == id) && replayOk cache m

/-- A plain replicable snapshot: kind Regular and every structural field
empty. -/
def plainCached (id author : Nat) (content : String) : CachedMessage :=
  { activity := none
    application := none
    application_id := none
    attachments := []
    author := author
    components := []
    content := content
    embeds := []
    guild_id := some 1
    id := id
    interaction := none
    kind := MessageType.Regular
    pinned := false
    reactions := []
    sticker_items := []
    webhook_id := none }

/-- A string of the given length. -/
def contentOfLength (n : Nat) : String :=
  String.mk (List.replicate n 'x')

/-- Concrete fixture: channel 10, newest-first history ids 3, 2, 1, where
message 2 is pinned (weird) and messages 1 and 3 are plain. -/
def exCache : BotCache :=
  { channel := fun id =>
      if id == 10 then some { id := 10, kind := ChannelKind.GuildText, parent_id := none }
      else none
    channel_messages := fun id => if id == 10 then some [3, 2, 1] else none
    message := fun id =>
      if id == 1 then some (plainCached 1 100 "hi")
      else if id == 2 then some { plainCached 2 101 "yo" with pinned := true }
      else if id == 3 then some (plainCached 3 102 "hey")
      else none
    member := fun _ _ => some { nick := none }
    user := fun _ => some { name := "someone" } }

/-- The form submission editing message 1 of channel 10 to hello. -/
def exModal : Modal :=
  { channel_id := 10
    edit_message_id := 1
    value := "hello"
    member := some { nick := none, user := some { name := "editor" }, permissions := none } }

/-- Every remote call succeeds. -/
def allOkOracle : Oracle :=
  { deferOk := true
    webhookOk := true
    executeOk := fun _ => true
    deleteOk := true
    updateOk := true }

/-- The interaction types handled by the dispatch of handle. -/
def isHandledKind : InteractionType → Bool
  | InteractionType.ApplicationCommand => true
  | InteractionType.MessageComponent => true
  | InteractionType.ModalSubmit => true
  | _ => false

/-- How many terminal updates a pipeline trace attempts. -/
def terminalUpdates (trace : List PipelineEvent) : Nat :=
  (trace.filter fun c =>
    match c with
    | PipelineEvent.update_response _ => true
    | _ => false).length

/-- A plain replicable full Message: kind Regular, human author, every
structural field empty. -/
def plainMessage (id : Nat) (content : String) : Message :=
  { activity := none
    application := none
    application_id := none
    attachments := []
    author := { id := 100, bot := false, name := "author" }
    components := []
    content := content
    embeds := []
    guild_id := some 1
    id := id
    interaction := none
    kind := MessageType.Regular
    pinned := false
    reactions := []
    sticker_items := []
    webhook_id := none }

/-- Fixture for the weird-target form submission: history ids 2, 1 where the
target message 1 is pinned (weird) and message 2 is plain. -/
def exCacheC6 : BotCache :=
  { exCache with
    channel_messages := fun id => if id == 10 then some [2, 1] else none
    message := fun id =>
      if id == 1 then some { plainCached 1 100 "hi" with pinned := true }
      else if id == 2 then some (plainCached 2 101 "yo")
      else none }

/-- Fixture for the all-weird window: history ids 2, 1 with both messages
pinned. -/
def exCacheAllWeird : BotCache :=
  { exCache with
    channel_messages := fun id => if id == 10 then some [2, 1] else none
    message := fun id =>
      if id == 1 then some { plainCached 1 100 "hi" with pinned := true }
      else if id == 2 then some { plainCached 2 101 "yo" with pinned := true }
      else none }

/-- A cache holding only message 5, for the length-boundary witness. -/
def cache5 : BotCache :=
  { exCache with
    message := fun id => if id == 5 then some (plainCached 5 100 "cached") else none }

/-- A resolved target message of 2001 characters. -/
def msg2001 : Message := plainMessage 5 (contentOfLength 2001)

/-- A resolved target message of 2000 characters. -/
def msg2000 : Message := plainMessage 5 (contentOfLength 2000)

/-- The command carrying the 2001-character target. -/
def cmd2001 : CommandData :=
  { channel_id := 10, member := none, resolved_message := some msg2001 }

/-- The command carrying the 2000-character target. -/
def cmd2000 : CommandData :=
  { channel_id := 10, member := none, resolved_message := some msg2000 }

/-- A command whose 2001-character target is not in the cache. -/
def cmdUncached : CommandData :=
  { channel_id := 10, member := none, resolved_message := some (plainMessage 6 (contentOfLength 2001)) }

/-- An acting member whose permission set is empty. -/
def memberNoPerms : PartialMember :=
  { nick := none, user := some { name := "alice" }, permissions := some [] }

/-- A valid command on the cached plain message 1, issued by an acting
member that lacks every permission. -/
def cmdNoPerms : CommandData :=
  { channel_id := 10, member := some memberNoPerms,
    resolved_message := some (plainMessage 1 "hi") }

/-- Both permissions the edit command requires of the agent. -/
def editSelfPermissions : List Permission :=
  [Permission.manageMessages, Permission.manageWebhooks]

/-- Interleaving where both acquire calls pass the cold-cache check and the
empty remote listing before either creates. -/
def raceSchedule : List Bool :=
  [true, true, false, false, true, false, true, true, false, false]

/-- Serialized schedule: the first acquire call runs to completion, then the
second takes its first step. -/
def serializedSchedule : List Bool := [true, true, true, true, true, false]

/-- The calls of the fixture replication before its delete call. -/
def c5pre : List RemoteCall :=
  [RemoteCall.ack,
    RemoteCall.execute_webhook none 1 "hello" "someone (edited by editor)",
    RemoteCall.execute_webhook none 3 "hey" "someone"]

/-- The contiguous chronological window from the target to the newest
message: the suffix of the oldest-first history starting at the target id. -/
def chronWindow (H : List Nat) (t : Nat) : List Nat :=
  H.dropWhile (fun id => id != t)

/-! Helper lemmas. -/

theorem contentOfLength_length (n : Nat) : (contentOfLength n).length = n := by
  show (List.replicate n 'x').length = n
  simp

theorem check_self_no_user (selfPermissions : Option (List Permission))
    (required : List Permission) (missing : List Permission) :
    check_self_permissions selfPermissions required
      ≠ some (BotError.user (UserError.UserMissingPermissions missing)) := by
  unfold check_self_permissions
  cases selfPermissions with
  | none => simp
  | some held =>
    by_cases h : (required.filter (fun p => !held.contains p)).isEmpty
    · simp [h]
    · simp [h]

/-! Claim theorems. -/

/-- Claim C7 (amended): the command entry point applies exactly the
disjunction of the spec, and the replay filter applies the same disjunction
minus the author-is-a-bot test, which the cache snapshot cannot see. -/
theorem weird_filters_match_spec :
    (∀ message : Message, message_is_weird message = specWeird message) ∧
    (∀ message : Message,
      cached_message_is_weird (toCachedMessage message) = specWeirdNoBot message) :=
  ⟨fun _ => rfl, fun _ => rfl⟩

/-- Claim C7 counterexample: a plain message authored by a bot is weird by
the spec disjunction and by the command entry predicate, yet the replay
filter classifies its cache snapshot as not weird, so the two sides do not
apply the same disjunction. -/
theorem weird_filter_bot_counterexample :
    specWeird botMessage = true ∧ message_is_weird botMessage = true ∧
    cached_message_is_weird (toCachedMessage botMessage) = false := by decide

/-- Claim C2 counterexample: on a cold cache with no remote webhook there is
an interleaving of two concurrent acquire calls that performs two remote
creation calls and resolves the callers to different identities. -/
theorem acquire_race_counterexample :
    (runSchedule coldPair raceSchedule).shared.createCount = 2 ∧
    (runSchedule coldPair raceSchedule).first = AcquirePc.finished (some 1) ∧
    (runSchedule coldPair raceSchedule).second = AcquirePc.finished (some 2) := by
  decide

/-- Claim C2 (amended): when the two acquire calls are serialized, the first
performs the single remote creation and the second resolves to the same
identity from the cache in one step without any remote call. -/
theorem acquire_serialized_single_creation :
    (runSchedule coldPair serializedSchedule).shared.createCount = 1 ∧
    (runSchedule coldPair serializedSchedule).first = AcquirePc.finished (some 1) ∧
    (runSchedule coldPair serializedSchedule).second = AcquirePc.finished (some 1) := by
  decide

/-- Claim C3 counterexample: a form submission does not acknowledge as a
deferred new visible reply, a selection interaction is not acknowledged at
all, and handle still proceeds to dispatch a selection with no
acknowledgment call in its trace. -/
theorem defer_kind_counterexample :
    deferResponseKind InteractionType.ModalSubmit
        ≠ some InteractionResponseType.DeferredChannelMessageWithSource ∧
    deferResponseKind InteractionType.MessageComponent
        ≠ some InteractionResponseType.DeferredUpdateMessage ∧
    (handle InteractionType.MessageComponent true true DispatchOutcome.ok).1
      = [PipelineEvent.dispatched] := by
  refine ⟨by decide, by decide, ?_⟩
  rfl

/-- Claim C3 (amended): the acknowledgment kind is fixed per triggering
kind: a fresh command acknowledges as deferred new visible reply, a form
submission as deferred update of the existing message, a selection
interaction gets no acknowledgment; whenever a kind has an acknowledgment,
handle issues it as the very first call of the session. -/
theorem defer_kinds_and_ack_first :
    deferResponseKind InteractionType.ApplicationCommand
        = some InteractionResponseType.DeferredChannelMessageWithSource ∧
    deferResponseKind InteractionType.ModalSubmit
        = some InteractionResponseType.DeferredUpdateMessage ∧
    deferResponseKind InteractionType.MessageComponent = none ∧
    ∀ (kind : InteractionType) (deferOk updateOk : Bool)
      (outcome : DispatchOutcome) (rt : InteractionResponseType),
      deferResponseKind kind = some rt →
      ∃ rest, (handle kind deferOk updateOk outcome).1
        = PipelineEvent.create_response rt :: rest := by
  refine ⟨rfl, rfl, rfl, ?_⟩
  intro kind deferOk updateOk outcome rt hrt
  unfold handle
  rw [hrt]
  cases deferOk with
  | false => exact ⟨[], rfl⟩
  | true =>
    cases kind <;> simp_all [deferResponseKind] <;>
      rcases outcome with _ | e <;>
      first
        | exact ⟨_, rfl⟩
        | (rcases e with eu | d <;> cases updateOk <;> exact ⟨_, rfl⟩)

/-- Claim C3 witness: the acknowledgment-first property at a concrete
command session. -/
theorem defer_kinds_and_ack_first_witness :
    ∃ rest, (handle InteractionType.ApplicationCommand true true DispatchOutcome.ok).1
      = PipelineEvent.create_response
          InteractionResponseType.DeferredChannelMessageWithSource :: rest :=
  defer_kinds_and_ack_first.2.2.2 InteractionType.ApplicationCommand true true
    DispatchOutcome.ok InteractionResponseType.DeferredChannelMessageWithSource rfl

/-- Claim C4 counterexample: a command session whose acknowledgment call
fails attempts zero terminal updates even though its dispatch would fail
too, so a terminal update is not attempted regardless of which step fails. -/
theorem handle_ack_failure_counterexample :
    terminalUpdates (handle InteractionType.ApplicationCommand false true
        (DispatchOutcome.failed (BotError.other "boom"))).1 = 0 ∧
    (handle InteractionType.ApplicationCommand false true
        (DispatchOutcome.failed (BotError.other "boom"))).2
      = some (BotError.other "acknowledgment failed") := by
  exact ⟨rfl, rfl⟩

/-- Claim C4 (amended): for a session of a handled kind whose acknowledgment
succeeded, a failing dispatch leads to exactly one attempted terminal
update; a recognized user-facing error is rendered as its own message text
and swallowed, any other error is rendered as the fixed generic apology and
reported out-of-band to the owner channel; if instead the acknowledgment
call fails, no terminal update is attempted. -/
theorem handle_failure_single_terminal_update :
    (∀ (kind : InteractionType) (updateOk : Bool) (e : BotError),
      isHandledKind kind = true →
      terminalUpdates (handle kind true updateOk (DispatchOutcome.failed e)).1 = 1) ∧
    (∀ (kind : InteractionType) (updateOk : Bool) (eu : UserError),
      isHandledKind kind = true →
      PipelineEvent.update_response (userErrorMessage eu)
          ∈ (handle kind true updateOk (DispatchOutcome.failed (BotError.user eu))).1 ∧
      (handle kind true updateOk (DispatchOutcome.failed (BotError.user eu))).2
        = if updateOk then none
          else some (BotError.other "terminal update failed")) ∧
    (∀ (kind : InteractionType) (d : String),
      isHandledKind kind = true →
      PipelineEvent.update_response genericApology
          ∈ (handle kind true true (DispatchOutcome.failed (BotError.other d))).1 ∧
      handle_event kind true true (DispatchOutcome.failed (BotError.other d))
        = (handle kind true true (DispatchOutcome.failed (BotError.other d))).1
          ++ [PipelineEvent.owner_message ("an error occurred: " ++ d)]) ∧
    (∀ (updateOk : Bool) (outcome : DispatchOutcome) (kind : InteractionType),
      (deferResponseKind kind).isSome = true →
      terminalUpdates (handle kind false updateOk outcome).1 = 0) := by
  refine ⟨?_, ?_, ?_, ?_⟩
  · intro kind updateOk e hk
    cases kind <;> simp_all [isHandledKind] <;>
      rcases e with eu | d <;> cases updateOk <;>
      simp [handle, deferResponseKind, terminalUpdates]
  · intro kind updateOk eu hk
    cases kind <;> simp_all [isHandledKind] <;> cases updateOk <;>
      simp [handle, deferResponseKind]
  · intro kind d hk
    cases kind <;> simp_all [isHandledKind] <;>
      simp [handle, handle_event, deferResponseKind]
  · intro updateOk outcome kind hk
    cases kind <;> simp_all [deferResponseKind] <;>
      simp [handle, deferResponseKind, terminalUpdates]

/-- Claim C4 witness: the single terminal update at a concrete failing
modal session. -/
theorem handle_failure_single_terminal_update_witness :
    terminalUpdates (handle InteractionType.ModalSubmit true true
        (DispatchOutcome.failed (BotError.other "boom"))).1 = 1 :=
  handle_failure_single_terminal_update.1 InteractionType.ModalSubmit true
    (BotError.other "boom") rfl

/-- Claim C8 counterexample: a 2001-character target that is not in the
cache is rejected as NoCachedMessages, not as MessageTooLong, so the length
rejection does not happen before any other check. -/
theorem command_check_order_counterexample :
    2000 < (plainMessage 6 (contentOfLength 2001)).content.length ∧
    (_command (some editSelfPermissions) exCache cmdUncached).2
      = some (BotError.user (UserError.Edit EditError.NoCachedMessages)) := by
  constructor
  · show 2000 < (contentOfLength 2001).length
    rw [contentOfLength_length]
    decide
  · rfl

/-- Claim C8 (amended): once the agent permission check and the
cached-message check have passed, the command entry point rejects the
target with MessageTooLong exactly when its text exceeds 2000 characters
(2000 accepted, 2001 rejected), and on that rejection no remote call has
been issued. -/
theorem command_too_long_boundary
    (selfPermissions : Option (List Permission)) (cache : BotCache)
    (command : CommandData) (message : Message)
    (hres : command.resolved_message = some message)
    (hperm : check_self_permissions selfPermissions editSelfPermissions = none)
    (hcached : (cache.message message.id).isSome = true) :
    ((_command selfPermissions cache command).2
        = some (BotError.user (UserError.Edit EditError.MessageTooLong))
      ↔ 2000 < message.content.length) ∧
    (2000 < message.content.length →
      (_command selfPermissions cache command).1 = []) := by
  have hn : (cache.message message.id).isNone = false := by
    cases hm : cache.message message.id with
    | none => rw [hm] at hcached; simp at hcached
    | some m => rfl
  unfold _command
  rw [show [Permission.manageMessages, Permission.manageWebhooks]
      = editSelfPermissions from rfl, hperm, hres]
  simp only [hn, Bool.false_eq_true, if_false]
  by_cases hlen : 2000 < message.content.length
  · simp [hlen]
  · have hlen' : (message.content.length > 2000) = False := by
      simp [hlen]
    by_cases hw : message_is_weird message
    · simp [hlen', hw, hlen]
    · simp [hlen', hw, hlen]

/-- Claim C8 witness: the boundary at concrete 2001- and 2000-character
targets. -/
theorem command_too_long_boundary_witness :
    (((_command (some editSelfPermissions) cache5 cmd2001).2
        = some (BotError.user (UserError.Edit EditError.MessageTooLong))
      ↔ 2000 < msg2001.content.length) ∧
      (2000 < msg2001.content.length →
        (_command (some editSelfPermissions) cache5 cmd2001).1 = [])) ∧
    (((_command (some editSelfPermissions) cache5 cmd2000).2
        = some (BotError.user (UserError.Edit EditError.MessageTooLong))
      ↔ 2000 < msg2000.content.length) ∧
      (2000 < msg2000.content.length →
        (_command (some editSelfPermissions) cache5 cmd2000).1 = [])) :=
  ⟨command_too_long_boundary (some editSelfPermissions) cache5 cmd2001 msg2001
      rfl rfl (by decide),
    command_too_long_boundary (some editSelfPermissions) cache5 cmd2000 msg2000
      rfl rfl (by decide)⟩

/-- Claim C9 counterexample: an acting member with an empty permission set
(which the unused member checker itself reports as missing MANAGE_MESSAGES)
still gets the edit form opened: the command returns no
UserMissingPermissions error. -/
theorem command_no_user_permission_check_counterexample :
    check_member_permissions memberNoPerms [Permission.manageMessages]
      = some (BotError.user (UserError.UserMissingPermissions
          [Permission.manageMessages])) ∧
    _command (some editSelfPermissions) exCache cmdNoPerms
      = ([RemoteCall.create_modal 1 "hi"], none) := by
  exact ⟨rfl, rfl⟩

/-- Claim C9 (amended): the command path never returns the
UserMissingPermissions error and ignores the acting member entirely; it
checks only the agent own permissions, and user-permission gating is left
to the platform through the command default member permission. -/
theorem command_ignores_member_permissions :
    (∀ (selfPermissions : Option (List Permission)) (cache : BotCache)
        (command : CommandData) (missing : List Permission),
      (_command selfPermissions cache command).2
        ≠ some (BotError.user (UserError.UserMissingPermissions missing))) ∧
    (∀ (selfPermissions : Option (List Permission)) (cache : BotCache)
        (command : CommandData) (m1 m2 : Option PartialMember),
      _command selfPermissions cache { command with member := m1 }
        = _command selfPermissions cache { command with member := m2 }) := by
  constructor
  · intro sp cache command missing h
    unfold _command at h
    cases hp : check_self_permissions sp
        [Permission.manageMessages, Permission.manageWebhooks] with
    | some e =>
      rw [hp] at h
      simp at h
      exact check_self_no_user sp
        [Permission.manageMessages, Permission.manageWebhooks] missing (by rw [hp, h])
    | none =>
      rw [hp] at h
      cases hres : command.resolved_message with
      | none => rw [hres] at h; simp at h
      | some message =>
        rw [hres] at h
        by_cases hc : (cache.message message.id).isNone <;>
          by_cases hlen : message.content.length > 2000 <;>
          by_cases hw : message_is_weird message <;>
          simp [hc, hlen, hw] at h
  · intro sp cache command m1 m2
    rfl

/-- Claim C9 witness: no UserMissingPermissions at the concrete
permission-lacking command. -/
theorem command_ignores_member_permissions_witness :
    (_command (some editSelfPermissions) exCache cmdNoPerms).2
      ≠ some (BotError.user (UserError.UserMissingPermissions
          [Permission.manageMessages])) :=
  command_ignores_member_permissions.1 (some editSelfPermissions) exCache
    cmdNoPerms [Permission.manageMessages]

theorem takeWhile_append_all {α : Type} (p : α → Bool) (l1 l2 : List α)
    (h : ∀ x ∈ l1, p x = true) :
    (l1 ++ l2).takeWhile p = l1 ++ l2.takeWhile p := by
  induction l1 with
  | nil => simp
  | cons a tl ih =>
    have ha : p a = true := h a (by simp)
    simp only [List.cons_append, List.takeWhile_cons, ha, if_true]
    rw [ih (fun x hx => h x (by simp [hx]))]

theorem takeWhile_append_stop {α : Type} (p : α → Bool) (l1 l2 : List α)
    (x : α) (hx : x ∈ l1) (hpx : p x = false) :
    (l1 ++ l2).takeWhile p = l1.takeWhile p := by
  induction l1 with
  | nil => cases hx
  | cons a tl ih =>
    by_cases hpa : p a = true
    · have hxtl : x ∈ tl := by
        rcases List.mem_cons.mp hx with rfl | h
        · rw [hpa] at hpx; cases hpx
        · exact h
      simp only [List.cons_append, List.takeWhile_cons, hpa, if_true]
      rw [ih hxtl]
    · have hpa' : p a = false := by
        cases h : p a
        · rfl
        · exact absurd h hpa
      simp [List.takeWhile_cons, hpa']

theorem unfilteredIds_reverse_eq_window (H : List Nat) (t : Nat)
    (hmem : t ∈ H) (hnodup : H.Nodup) :
    (unfilteredIds H.reverse t).reverse
      = H.dropWhile (fun id => id != t) := by
  induction H with
  | nil => cases hmem
  | cons a tl ih =>
    rcases List.nodup_cons.mp hnodup with ⟨hnotin, hnodup'⟩
    by_cases ha : a = t
    · subst ha
      have hall : ∀ x ∈ tl.reverse, (fun id => id != a) x = true := by
        intro x hx
        have : x ∈ tl := List.mem_reverse.mp hx
        have hne : x ≠ a := fun h => hnotin (h ▸ this)
        simp [hne]
      unfold unfilteredIds
      rw [List.reverse_cons, takeWhile_append_all _ _ _ hall]
      simp [List.takeWhile_cons, List.dropWhile_cons]
    · have htl : t ∈ tl := by
        rcases List.mem_cons.mp hmem with rfl | h
        · exact absurd rfl ha
        · exact h
      have hstop : (fun id => id != t) t = false := by simp
      have hmemrev : t ∈ tl.reverse := List.mem_reverse.mpr htl
      unfold unfilteredIds
      rw [List.reverse_cons,
        takeWhile_append_stop (fun id => id != t) tl.reverse [a] t hmemrev hstop]
      have golh := ih htl hnodup'
      unfold unfilteredIds at golh
      have hpa : (a != t) = true := by simp [ha]
      simp only [List.dropWhile_cons, hpa, if_true]
      exact golh

theorem unfilteredIds_eq_window_reverse (H : List Nat) (t : Nat)
    (hmem : t ∈ H) (hnodup : H.Nodup) :
    unfilteredIds H.reverse t = (H.dropWhile (fun id => id != t)).reverse := by
  have h := unfilteredIds_reverse_eq_window H t hmem hnodup
  rw [← h, List.reverse_reverse]

theorem collectMessages_eq_map (cache : BotCache) (l : List Nat)
    (h : ∀ id ∈ l, (cache.message id).isSome = true) :
    collectMessages cache l = some (l.map (theMessage cache)) := by
  induction l with
  | nil => rfl
  | cons a tl ih =>
    have ha := h a (by simp)
    rcases hm : cache.message a with _ | m
    · rw [hm] at ha; cases ha
    · unfold collectMessages
      rw [hm, ih (fun id hid => h id (by simp [hid]))]
      simp [theMessage, hm]

theorem filter_map_comm {α β : Type} (f : α → β) (q : β → Bool) (l : List α) :
    (l.map f).filter q = (l.filter (fun a => q (f a))).map f := by
  induction l with
  | nil => rfl
  | cons a tl ih =>
    by_cases h : q (f a) = true
    · simp [List.filter_cons, h, ih]
    · have h' : q (f a) = false := by
        cases hh : q (f a)
        · rfl
        · exact absurd hh h
      simp [List.filter_cons, h', ih]

theorem map_id_on {α : Type} (g : α → α) (l : List α) (h : ∀ x ∈ l, g x = x) :
    l.map g = l := by
  induction l with
  | nil => rfl
  | cons a tl ih =>
    simp only [List.map_cons, h a (by simp),
      ih (fun x hx => h x (by simp [hx]))]

theorem filter_congr_on {α : Type} (p q : α → Bool) (l : List α)
    (h : ∀ x ∈ l, p x = q x) : l.filter p = l.filter q := by
  induction l with
  | nil => rfl
  | cons a tl ih =>
    rw [List.filter_cons, List.filter_cons, h a (by simp),
      ih (fun x hx => h x (by simp [hx]))]

theorem replayCall_ok_shape (cache : BotCache) (modal : Modal) (t : Nat)
    (th : Option Nat) (m : CachedMessage) (call : RemoteCall)
    (h : replayCall cache modal t th m = Except.ok call) :
    ∃ content username,
      call = RemoteCall.execute_webhook th m.id content username := by
  unfold replayCall at h
  rcases hg : m.guild_id with _ | g
  · simp only [hg] at h
    exact Except.noConfusion h
  simp only [hg] at h
  rcases hmem : cache.member g m.author with _ | mem
  · simp only [hmem] at h
    exact Except.noConfusion h
  simp only [hmem] at h
  rcases hu : cache.user m.author with _ | u
  · simp only [hu] at h
    exact Except.noConfusion h
  simp only [hu] at h
  by_cases hid : (m.id == t) = true
  · rw [if_pos hid] at h
    rcases hmod : modal.member with _ | im
    · simp only [hmod] at h
      exact Except.noConfusion h
    simp only [hmod] at h
    rcases hiu : im.user with _ | iu
    · simp only [hiu] at h
      exact Except.noConfusion h
    simp only [hiu] at h
    exact ⟨_, _, (Except.ok.inj h).symm⟩
  · rw [if_neg hid] at h
    exact ⟨_, _, (Except.ok.inj h).symm⟩

theorem replayCall_ok_of (cache : BotCache) (modal : Modal) (t : Nat)
    (th : Option Nat) (m : CachedMessage)
    (hok : replayOk cache m = true) (hmm : modalMemberOk modal = true) :
    ∃ call, replayCall cache modal t th m = Except.ok call := by
  unfold replayOk at hok
  rcases hg : m.guild_id with _ | g <;> simp only [hg] at hok
  · simp at hok
  rw [Bool.and_eq_true] at hok
  have hmem : (cache.member g m.author).isSome = true := hok.1
  have hu : (cache.user m.author).isSome = true := hok.2
  rcases Option.isSome_iff_exists.mp hmem with ⟨mem, hmem'⟩
  rcases Option.isSome_iff_exists.mp hu with ⟨u, hu'⟩
  unfold modalMemberOk at hmm
  unfold replayCall
  simp only [hg, hmem', hu']
  by_cases hid : (m.id == t) = true
  · rw [if_pos hid]
    rcases hmod : modal.member with _ | im <;> simp only [hmod] at hmm ⊢
    · cases hmm
    rcases Option.isSome_iff_exists.mp hmm with ⟨iu, hiu⟩
    simp only [hiu]
    exact ⟨_, rfl⟩
  · rw [if_neg hid]
    exact ⟨_, rfl⟩

theorem runReplay_all_executes (cache : BotCache) (modal : Modal) (t : Nat)
    (th : Option Nat) (oracle : Oracle) :
    ∀ msgs, ∀ c ∈ (runReplay cache modal t th oracle msgs).1,
      isExecute c = true := by
  intro msgs
  induction msgs with
  | nil => intro c hc; simp [runReplay] at hc
  | cons m rest ih =>
    intro c hc
    unfold runReplay at hc
    rcases hr : replayCall cache modal t th m with e | call
    · simp only [hr] at hc
      exact absurd hc (List.not_mem_nil c)
    · simp only [hr] at hc
      rcases replayCall_ok_shape cache modal t th m call hr with ⟨ct, un, rfl⟩
      by_cases he : oracle.executeOk m.id = true
      · rw [if_pos he] at hc
        simp only [List.mem_cons] at hc
        rcases hc with rfl | hc
        · rfl
        · exact ih c hc
      · rw [if_neg he] at hc
        simp only [List.mem_singleton] at hc
        subst hc
        rfl

theorem runReplay_complete (cache : BotCache) (modal : Modal) (t : Nat)
    (th : Option Nat) (oracle : Oracle) :
    ∀ msgs, (runReplay cache modal t th oracle msgs).2 = none →
      executedIds (runReplay cache modal t th oracle msgs).1
          = msgs.map (fun m => m.id)
        ∧ ∀ m ∈ msgs, oracle.executeOk m.id = true := by
  intro msgs
  induction msgs with
  | nil => intro _; exact ⟨rfl, by intro m hm; cases hm⟩
  | cons m rest ih =>
    intro h
    unfold runReplay at h ⊢
    rcases hr : replayCall cache modal t th m with e | call
    · simp only [hr] at h
      exact Option.noConfusion h
    · simp only [hr] at h ⊢
      by_cases he : oracle.executeOk m.id = true
      · rw [if_pos he] at h ⊢
        rcases ih h with ⟨h1, h2⟩
        constructor
        · rcases replayCall_ok_shape cache modal t th m call hr with ⟨ct, un, rfl⟩
          simp only [executedIds] at h1 ⊢
          simp only [List.filterMap_cons, List.map_cons]
          rw [h1]
        · intro x hx
          rcases List.mem_cons.mp hx with rfl | hx
          · exact he
          · exact h2 x hx
      · rw [if_neg he] at h
        simp at h

theorem runReplay_success (cache : BotCache) (modal : Modal) (t : Nat)
    (th : Option Nat) (oracle : Oracle) :
    ∀ msgs, (∀ m ∈ msgs, replayOk cache m = true) →
      modalMemberOk modal = true →
      (∀ m ∈ msgs, oracle.executeOk m.id = true) →
      (runReplay cache modal t th oracle msgs).2 = none := by
  intro msgs
  induction msgs with
  | nil => intro _ _ _; rfl
  | cons m rest ih =>
    intro hok hmm hexec
    rcases replayCall_ok_of cache modal t th m (hok m (by simp)) hmm with ⟨call, hcall⟩
    unfold runReplay
    simp only [hcall]
    rw [if_pos (hexec m (by simp))]
    exact ih (fun x hx => hok x (by simp [hx])) hmm (fun x hx => hexec x (by simp [hx]))

theorem runReplay_ids_subset (cache : BotCache) (modal : Modal) (t : Nat)
    (th : Option Nat) (oracle : Oracle) :
    ∀ msgs id, id ∈ executedIds (runReplay cache modal t th oracle msgs).1 →
      ∃ m ∈ msgs, m.id = id := by
  intro msgs
  induction msgs with
  | nil => intro id hid; simp [runReplay, executedIds] at hid
  | cons m rest ih =>
    intro id hid
    unfold runReplay at hid
    rcases hr : replayCall cache modal t th m with e | call
    · simp [hr, executedIds] at hid
    · simp only [hr] at hid
      rcases replayCall_ok_shape cache modal t th m call hr with ⟨ct, un, rfl⟩
      by_cases he : oracle.executeOk m.id = true
      · rw [if_pos he] at hid
        simp only [executedIds, List.filterMap_cons] at hid
        rcases List.mem_cons.mp hid with rfl | hid
        · exact ⟨m, by simp⟩
        · rcases ih id hid with ⟨m', hm', hid'⟩
          exact ⟨m', by simp [hm'], hid'⟩
      · rw [if_neg he] at hid
        simp [executedIds] at hid
        exact ⟨m, by simp, hid.symm⟩

theorem execute_not_delete (c : RemoteCall) (h : isExecute c = true) :
    isDelete c = false := by
  cases c <;> simp_all [isExecute, isDelete]

theorem execute_no_targets (c : RemoteCall) (h : isExecute c = true) :
    deleteTargets c = [] := by
  cases c <;> simp_all [isExecute, deleteTargets]

theorem deletedIds_executes (l : List RemoteCall)
    (h : ∀ c ∈ l, isExecute c = true) : deletedIds l = [] := by
  induction l with
  | nil => rfl
  | cons a tl ih =>
    simp only [deletedIds, List.flatMap_cons]
    rw [execute_no_targets a (h a (by simp))]
    simpa [deletedIds] using ih (fun c hc => h c (by simp [hc]))

theorem noExecuteAfterDelete_append_front (l rest : List RemoteCall)
    (h : ∀ c ∈ l, isDelete c = false) :
    noExecuteAfterDelete (l ++ rest) = noExecuteAfterDelete rest := by
  induction l with
  | nil => rfl
  | cons a tl ih =>
    have ha := h a (by simp)
    simp only [List.cons_append, noExecuteAfterDelete, ha, Bool.false_eq_true,
      if_false]
    exact ih (fun c hc => h c (by simp [hc]))

theorem delete_not_execute (c : RemoteCall) (h : isDelete c = true) :
    isExecute c = false := by
  cases c <;> simp_all [isExecute, isDelete]

theorem executedIds_append (l1 l2 : List RemoteCall) :
    executedIds (l1 ++ l2) = executedIds l1 ++ executedIds l2 :=
  List.filterMap_append l1 l2 _

theorem executedIds_cons_not_exec (a : RemoteCall) (tl : List RemoteCall)
    (ha : isExecute a = false) : executedIds (a :: tl) = executedIds tl := by
  cases a <;> simp [executedIds, isExecute, List.filterMap_cons] at ha ⊢

theorem executedIds_eq_nil (l : List RemoteCall)
    (h : ∀ c ∈ l, isExecute c = false) : executedIds l = [] := by
  induction l with
  | nil => rfl
  | cons a tl ih =>
    rw [executedIds_cons_not_exec a tl (h a (by simp))]
    exact ih (fun c hc => h c (by simp [hc]))

theorem deletedIds_append (l1 l2 : List RemoteCall) :
    deletedIds (l1 ++ l2) = deletedIds l1 ++ deletedIds l2 := by
  simp [deletedIds]

theorem deleteStep_spec (channel_id : Nat) (msgs : List CachedMessage) :
    ∀ dc, deleteStep channel_id msgs = some dc →
      isDelete dc = true ∧ deleteTargets dc = msgs.map (fun m => m.id) := by
  intro dc hdc
  unfold deleteStep at hdc
  by_cases hl : (msgs.length == 1) = true
  · rw [if_pos hl] at hdc
    have hlen : msgs.length = 1 := by simpa using hl
    rcases List.length_eq_one.mp hlen with ⟨a, rfl⟩
    simp only [List.head?_cons] at hdc
    have := Option.some.inj hdc
    subst this
    exact ⟨rfl, rfl⟩
  · rw [if_neg hl] at hdc
    have := Option.some.inj hdc
    subst this
    exact ⟨rfl, rfl⟩

theorem modalReplicate_structure (cache : BotCache) (modal : Modal)
    (oracle : Oracle) (th : Option Nat) :
    (modalReplicate cache modal oracle th).1 = [] ∨
    ∃ ids u tail,
      cache.channel_messages modal.channel_id = some ids ∧
      collectMessages cache (unfilteredIds ids modal.edit_message_id) = some u ∧
      (modalReplicate cache modal oracle th).1
        = (runReplay cache modal modal.edit_message_id th oracle
            (modalMessages u)).1 ++ tail ∧
      (∀ c ∈ tail, isExecute c = false) ∧
      noExecuteAfterDelete tail = true ∧
      (∀ id ∈ deletedIds tail, id ∈ (modalMessages u).map (fun m => m.id)) ∧
      ((∃ c ∈ tail, isDelete c = true) →
        (runReplay cache modal modal.edit_message_id th oracle
          (modalMessages u)).2 = none) := by
  by_cases hweb : oracle.webhookOk = true
  case neg =>
    have heq : (modalReplicate cache modal oracle th).1 = [] := by
      unfold modalReplicate
      rw [if_neg hweb]
    exact Or.inl heq
  rcases hcm : cache.channel_messages modal.channel_id with _ | ids
  · have heq : (modalReplicate cache modal oracle th).1 = [] := by
      unfold modalReplicate
      rw [if_pos hweb]
      simp only [hcm]
    exact Or.inl heq
  rcases hcol : collectMessages cache (unfilteredIds ids modal.edit_message_id)
      with _ | u
  · have heq : (modalReplicate cache modal oracle th).1 = [] := by
      unfold modalReplicate
      rw [if_pos hweb]
      simp only [hcm, hcol]
    exact Or.inl heq
  right
  rcases hl2 : (runReplay cache modal modal.edit_message_id th oracle
      (modalMessages u)).2 with _ | e
  · rcases hd : deleteStep modal.channel_id (modalMessages u) with _ | dc
    · have heq : (modalReplicate cache modal oracle th).1
          = (runReplay cache modal modal.edit_message_id th oracle
              (modalMessages u)).1 ++ [] := by
        unfold modalReplicate
        rw [if_pos hweb]
        simp only [hcm, hcol, hl2, hd, List.append_nil]
      exact ⟨ids, u, [], rfl, hcol, heq, by simp, rfl, by simp [deletedIds], by simp⟩
    · rcases deleteStep_spec modal.channel_id (modalMessages u) dc hd with ⟨hdc1, hdc2⟩
      by_cases hdel : oracle.deleteOk = true
      · have heq : (modalReplicate cache modal oracle th).1
            = (runReplay cache modal modal.edit_message_id th oracle
                (modalMessages u)).1
              ++ [dc, RemoteCall.update_response (modalReply u)] := by
          unfold modalReplicate
          rw [if_pos hweb]
          simp only [hcm, hcol, hl2, hd]
          by_cases hupd : oracle.updateOk = true
          · rw [if_pos hdel, if_pos hupd]
          · rw [if_pos hdel, if_neg hupd]
        refine ⟨ids, u, [dc, RemoteCall.update_response (modalReply u)],
          rfl, hcol, heq, ?_, ?_, ?_, fun _ => hl2⟩
        · intro c hc
          rcases List.mem_cons.mp hc with rfl | hc
          · exact delete_not_execute c hdc1
          · simp only [List.mem_singleton] at hc
            subst hc
            rfl
        · simp only [noExecuteAfterDelete, hdc1, if_true, List.all_cons,
            List.all_nil, Bool.and_true]
          rfl
        · intro id hid
          simp only [deletedIds, List.flatMap_cons, List.flatMap_nil,
            List.append_nil, hdc2] at hid
          simpa [deleteTargets] using hid
      · have heq : (modalReplicate cache modal oracle th).1
            = (runReplay cache modal modal.edit_message_id th oracle
                (modalMessages u)).1 ++ [dc] := by
          unfold modalReplicate
          rw [if_pos hweb]
          simp only [hcm, hcol, hl2, hd]
          rw [if_neg hdel]
        refine ⟨ids, u, [dc], rfl, hcol, heq, ?_, ?_, ?_, fun _ => hl2⟩
        · intro c hc
          simp only [List.mem_singleton] at hc
          subst hc
          exact delete_not_execute c hdc1
        · simp [noExecuteAfterDelete, hdc1]
        · intro id hid
          simp only [deletedIds, List.flatMap_cons, List.flatMap_nil,
            List.append_nil, hdc2] at hid
          exact hid
  · have heq : (modalReplicate cache modal oracle th).1
        = (runReplay cache modal modal.edit_message_id th oracle
            (modalMessages u)).1 ++ [] := by
      unfold modalReplicate
      rw [if_pos hweb]
      simp only [hcm, hcol, hl2, List.append_nil]
    exact ⟨ids, u, [], rfl, hcol, heq, by simp, rfl, by simp [deletedIds], by simp⟩

theorem modal_submit_structure (cache : BotCache) (modal : Modal) (oracle : Oracle) :
    ((modal_submit cache modal oracle).1 = [RemoteCall.ack] ∧
      deletedIds (modal_submit cache modal oracle).1 = []) ∨
    ∃ th, (modal_submit cache modal oracle).1
        = RemoteCall.ack :: (modalReplicate cache modal oracle th).1 ∧
      (modal_submit cache modal oracle).2 = (modalReplicate cache modal oracle th).2 := by
  unfold modal_submit
  by_cases hdef : oracle.deferOk = true
  · rw [if_pos hdef]
    rcases hch : cache.channel modal.channel_id with _ | ch
    · simp only [hch]
      exact Or.inl ⟨by simp, rfl⟩
    simp only [hch]
    by_cases hthr : ch.kind.is_thread = true
    · rw [if_pos hthr]
      rcases hp : ch.parent_id with _ | p
      · simp only [hp]
        exact Or.inl ⟨by simp, rfl⟩
      · simp only [hp]
        exact Or.inr ⟨some ch.id, rfl, rfl⟩
    · rw [if_neg hthr]
      exact Or.inr ⟨none, rfl, rfl⟩
  · rw [if_neg hdef]
    left
    exact ⟨rfl, rfl⟩

theorem deleteStep_isSome (channel_id : Nat) (msgs : List CachedMessage) :
    ∃ dc, deleteStep channel_id msgs = some dc := by
  unfold deleteStep
  by_cases hl : (msgs.length == 1) = true
  · rw [if_pos hl]
    have hlen : msgs.length = 1 := by simpa using hl
    rcases List.length_eq_one.mp hlen with ⟨a, rfl⟩
    exact ⟨_, rfl⟩
  · rw [if_neg hl]
    exact ⟨_, rfl⟩

/-- Claim C5 (confirmed): within one replication, the trace never shows a
re-post after a delete call, and whenever a delete call is present every
message of the computed replay set was re-posted with a successful webhook
execution before it. -/
theorem modal_post_then_delete (cache : BotCache) (modal : Modal) (oracle : Oracle) :
    noExecuteAfterDelete (modal_submit cache modal oracle).1 = true ∧
    ((∃ c ∈ (modal_submit cache modal oracle).1, isDelete c = true) →
      ∃ u, modalWindow cache modal = some u ∧
        executedIds (modal_submit cache modal oracle).1
          = (modalMessages u).map (fun m => m.id) ∧
        ∀ m ∈ modalMessages u, oracle.executeOk m.id = true) := by
  rcases modal_submit_structure cache modal oracle with ⟨h1, _⟩ | ⟨th, h1, _⟩
  · rw [h1]
    refine ⟨rfl, ?_⟩
    rintro ⟨c, hc, hcd⟩
    simp only [List.mem_singleton] at hc
    subst hc
    simp [isDelete] at hcd
  · rcases modalReplicate_structure cache modal oracle th with hr
      | ⟨ids, u, tail, hcm, hcol, htr, hex, hnead, hdels, hloop⟩
    · rw [h1, hr]
      refine ⟨rfl, ?_⟩
      rintro ⟨c, hc, hcd⟩
      simp only [List.mem_singleton] at hc
      subst hc
      simp [isDelete] at hcd
    · have hloopexec := runReplay_all_executes cache modal modal.edit_message_id
        th oracle (modalMessages u)
      rw [h1, htr]
      constructor
      · have hnd : ∀ c ∈ RemoteCall.ack :: (runReplay cache modal
            modal.edit_message_id th oracle (modalMessages u)).1,
            isDelete c = false := by
          intro c hc
          rcases List.mem_cons.mp hc with rfl | hc
          · rfl
          · exact execute_not_delete c (hloopexec c hc)
        rw [← List.cons_append, noExecuteAfterDelete_append_front _ _ hnd]
        exact hnead
      · rintro ⟨c, hc, hcd⟩
        have hctail : c ∈ tail := by
          rcases List.mem_cons.mp hc with rfl | hc2
          · simp [isDelete] at hcd
          rcases List.mem_append.mp hc2 with hcl | hct
          · rw [execute_not_delete c (hloopexec c hcl)] at hcd
            exact Bool.noConfusion hcd
          · exact hct
        have hl2 := hloop ⟨c, hctail, hcd⟩
        rcases runReplay_complete cache modal modal.edit_message_id th oracle
          (modalMessages u) hl2 with ⟨hc1, hc2⟩
        refine ⟨u, ?_, ?_, hc2⟩
        · unfold modalWindow
          simp only [hcm]
          exact hcol
        · rw [executedIds_cons_not_exec RemoteCall.ack _ rfl, executedIds_append,
            executedIds_eq_nil tail hex, List.append_nil]
          exact hc1

/-- Claim C5 witness: the delete-after-posts property at the concrete
fixture replication states that both re-posts precede the delete. -/
theorem modal_post_then_delete_witness :
    noExecuteAfterDelete (modal_submit exCache exModal allOkOracle).1 = true ∧
    ∃ u, modalWindow exCache exModal = some u ∧
      executedIds (modal_submit exCache exModal allOkOracle).1
        = (modalMessages u).map (fun m => m.id) ∧
      ∀ m ∈ modalMessages u, allOkOracle.executeOk m.id = true :=
  ⟨(modal_post_then_delete exCache exModal allOkOracle).1,
    (modal_post_then_delete exCache exModal allOkOracle).2
      ⟨RemoteCall.delete_messages 10 [1, 3], by decide, rfl⟩⟩

/-- Claim C6 counterexample: the target message 1 of the fixture is weird
(pinned), yet the form submission is not a no-op failure: it re-posts and
deletes the newer message 2 and completes with the skipped-message reply. -/
theorem weird_target_counterexample :
    weirdAt exCacheC6 exModal.edit_message_id = true ∧
    (modal_submit exCacheC6 exModal allOkOracle).2 = none ∧
    executedIds (modal_submit exCacheC6 exModal allOkOracle).1 = [2] ∧
    deletedIds (modal_submit exCacheC6 exModal allOkOracle).1 = [2] ∧
    RemoteCall.update_response skippedWeirdReply
      ∈ (modal_submit exCacheC6 exModal allOkOracle).1 := by
  refine ⟨by decide, by decide, by decide, by decide, by decide⟩

/-- Claim C6 (amended): at the command entry point a weird target is
rejected with the MessageWeird failure before the form opens and no call is
issued; in the form-submission path a weird target is merely skipped like
any other weird message: it is neither re-posted nor deleted, while newer
replicable messages are still re-posted and deleted. -/
theorem weird_target_rejected_or_skipped :
    (∀ (selfPermissions : Option (List Permission)) (cache : BotCache)
        (command : CommandData) (message : Message),
      command.resolved_message = some message →
      check_self_permissions selfPermissions editSelfPermissions = none →
      (cache.message message.id).isSome = true →
      message.content.length ≤ 2000 →
      message_is_weird message = true →
      _command selfPermissions cache command
        = ([], some (BotError.user (UserError.Edit EditError.MessageWeird)))) ∧
    (∀ (cache : BotCache) (modal : Modal) (oracle : Oracle)
        (u : List CachedMessage),
      modalWindow cache modal = some u →
      (∀ m ∈ u, m.id = modal.edit_message_id → cached_message_is_weird m = true) →
      modal.edit_message_id ∉ executedIds (modal_submit cache modal oracle).1 ∧
      modal.edit_message_id ∉ deletedIds (modal_submit cache modal oracle).1) := by
  constructor
  · intro sp cache command message hres hperm hcached hlen hweird
    have hn : (cache.message message.id).isNone = false := by
      cases hm : cache.message message.id with
      | none => rw [hm] at hcached; cases hcached
      | some m => rfl
    unfold _command
    rw [show [Permission.manageMessages, Permission.manageWebhooks]
        = editSelfPermissions from rfl, hperm, hres]
    simp only [hn, Bool.false_eq_true, if_false]
    rw [if_neg (by simpa using Nat.not_lt.mpr hlen), if_pos hweird]
  · intro cache modal oracle u hu hwu
    rcases modal_submit_structure cache modal oracle with ⟨h1, _⟩ | ⟨th, h1, _⟩
    · rw [h1]
      constructor
      · simp [executedIds]
      · simp [deletedIds, deleteTargets]
    · rcases modalReplicate_structure cache modal oracle th with hr
        | ⟨ids, u', tail, hcm, hcol, htr, hex, hnead, hdels, hloop⟩
      · rw [h1, hr]
        constructor
        · simp [executedIds]
        · simp [deletedIds, deleteTargets]
      · have hueq : u' = u := by
          unfold modalWindow at hu
          rw [hcm] at hu
          exact Option.some.inj (hcol.symm.trans hu)
        subst hueq
        have hidne : ∀ m ∈ modalMessages u', m.id ≠ modal.edit_message_id := by
          intro m hm heq
          unfold modalMessages at hm
          have hmem2 := List.mem_filter.mp hm
          have hmu : m ∈ u' := List.mem_reverse.mp hmem2.1
          have hw := hwu m hmu heq
          rw [hw] at hmem2
          simpa using hmem2.2
        have hloopexec := runReplay_all_executes cache modal modal.edit_message_id
          th oracle (modalMessages u')
        rw [h1, htr]
        constructor
        · intro hmem
          rw [executedIds_cons_not_exec RemoteCall.ack _ rfl, executedIds_append,
            executedIds_eq_nil tail hex, List.append_nil] at hmem
          rcases runReplay_ids_subset cache modal modal.edit_message_id th oracle
            (modalMessages u') modal.edit_message_id hmem with ⟨m, hm, hid⟩
          exact hidne m hm hid
        · intro hmem
          have hzero : deletedIds (RemoteCall.ack :: ((runReplay cache modal
              modal.edit_message_id th oracle (modalMessages u')).1 ++ tail))
              = deletedIds tail := by
            rw [show RemoteCall.ack :: ((runReplay cache modal
                modal.edit_message_id th oracle (modalMessages u')).1 ++ tail)
              = ([RemoteCall.ack] ++ (runReplay cache modal modal.edit_message_id
                  th oracle (modalMessages u')).1) ++ tail by simp]
            rw [deletedIds_append, deletedIds_append,
              deletedIds_executes _ hloopexec]
            simp [deletedIds, deleteTargets]
          rw [hzero] at hmem
          have := hdels modal.edit_message_id hmem
          rcases List.mem_map.mp this with ⟨m, hm, hid⟩
          exact hidne m hm hid

/-- Claim C6 witness: the two amended behaviors at concrete inputs: the
weird cached target 1 is rejected at the command entry, and in the
form-submission fixture the weird target 1 is neither re-posted nor
deleted. -/
theorem weird_target_rejected_or_skipped_witness :
    _command (some editSelfPermissions) exCacheC6
        { channel_id := 10, member := none,
          resolved_message := some { plainMessage 1 "hi" with pinned := true } }
      = ([], some (BotError.user (UserError.Edit EditError.MessageWeird))) ∧
    (exModal.edit_message_id
        ∉ executedIds (modal_submit exCacheC6 exModal allOkOracle).1 ∧
      exModal.edit_message_id
        ∉ deletedIds (modal_submit exCacheC6 exModal allOkOracle).1) :=
  ⟨weird_target_rejected_or_skipped.1 (some editSelfPermissions) exCacheC6
      { channel_id := 10, member := none,
        resolved_message := some { plainMessage 1 "hi" with pinned := true } }
      { plainMessage 1 "hi" with pinned := true } rfl rfl (by decide) (by decide)
      (by decide),
    weird_target_rejected_or_skipped.2 exCacheC6 exModal allOkOracle
      [plainCached 2 101 "yo", { plainCached 1 100 "hi" with pinned := true }]
      (by decide) (by decide)⟩

/-- Claim C10 (confirmed): when every message of the scanned window,
target included, is weird, the form-submission path still reaches the
deletion step and issues one batch delete carrying an empty id list (the
single-delete branch needs exactly one survivor), then writes the
skipped-message reply instead of an error. -/
theorem all_weird_empty_batch_delete
    (cache : BotCache) (modal : Modal) (oracle : Oracle)
    (ch : CachedChannel) (ids : List Nat) (u : List CachedMessage)
    (hch : cache.channel modal.channel_id = some ch)
    (hth : ch.kind.is_thread = false)
    (hcm : cache.channel_messages modal.channel_id = some ids)
    (hcol : collectMessages cache (unfilteredIds ids modal.edit_message_id) = some u)
    (hwe : ∀ m ∈ u, cached_message_is_weird m = true)
    (hne : u ≠ [])
    (hdef : oracle.deferOk = true) (hweb : oracle.webhookOk = true)
    (hdel : oracle.deleteOk = true) (hupd : oracle.updateOk = true) :
    modal_submit cache modal oracle
      = ([RemoteCall.ack, RemoteCall.delete_messages modal.channel_id [],
          RemoteCall.update_response skippedWeirdReply], none) := by
  have hmm : modalMessages u = [] := by
    unfold modalMessages
    rw [List.filter_eq_nil_iff]
    intro m hm
    have := hwe m (List.mem_reverse.mp hm)
    simp [this]
  have hreply : modalReply u = skippedWeirdReply := by
    unfold modalReply
    rcases u with _ | ⟨m0, rest⟩
    · exact absurd rfl hne
    · have h0 := hwe m0 (by simp)
      simp [List.any_cons, h0]
  have hrep : modalReplicate cache modal oracle none
      = ([RemoteCall.delete_messages modal.channel_id [],
          RemoteCall.update_response skippedWeirdReply], none) := by
    unfold modalReplicate
    rw [if_pos hweb]
    simp [hcm, hcol, hmm, hreply, hdel, hupd,
      show runReplay cache modal modal.edit_message_id none oracle []
        = ([], none) from rfl,
      show deleteStep modal.channel_id []
        = some (RemoteCall.delete_messages modal.channel_id []) from rfl]
  unfold modal_submit
  rw [if_pos hdef]
  simp only [hch]
  rw [if_neg (show ¬ch.kind.is_thread = true by simp [hth])]
  show (RemoteCall.ack :: (modalReplicate cache modal oracle none).1,
    (modalReplicate cache modal oracle none).2) = _
  rw [hrep]

/-- Claim C10 witness: the empty batch delete and the skipped reply at the
all-weird fixture. -/
theorem all_weird_empty_batch_delete_witness :
    modal_submit exCacheAllWeird exModal allOkOracle
      = ([RemoteCall.ack, RemoteCall.delete_messages exModal.channel_id [],
          RemoteCall.update_response skippedWeirdReply], none) :=
  all_weird_empty_batch_delete exCacheAllWeird exModal allOkOracle
    { id := 10, kind := ChannelKind.GuildText, parent_id := none } [2, 1]
    [{ plainCached 2 101 "yo" with pinned := true },
      { plainCached 1 100 "hi" with pinned := true }]
    rfl rfl rfl (by decide) (by decide) (by decide) rfl rfl rfl rfl

theorem messageOkAt_spec (cache : BotCache) (id : Nat)
    (h : messageOkAt cache id = true) :
    ∃ m, cache.message id = some m ∧ theMessage cache id = m ∧ m.id = id ∧
      replayOk cache m = true := by
  unfold messageOkAt at h
  rcases hm : cache.message id with _ | m
  · simp only [hm] at h
    exact Bool.noConfusion h
  · simp only [hm] at h
    rw [Bool.and_eq_true] at h
    exact ⟨m, rfl, by simp [theMessage, hm], by simpa using h.1, h.2⟩

/-- Claim C1 (amended): the scan is not truncated at the first weird
message: every weird message of the window is individually skipped (neither
re-posted nor deleted), and the sequence of re-post calls equals the
chronological history window from the target to now with the weird messages
filtered out; the deleted ids are exactly the same filtered window. -/
theorem modal_replay_filtered_window
    (cache : BotCache) (modal : Modal) (oracle : Oracle)
    (H : List Nat) (ch : CachedChannel)
    (hch : cache.channel modal.channel_id = some ch)
    (hth : ch.kind.is_thread = false)
    (hH : cache.channel_messages modal.channel_id = some H.reverse)
    (hmem : modal.edit_message_id ∈ H)
    (hnodup : H.Nodup)
    (hok : ∀ id ∈ chronWindow H modal.edit_message_id,
      messageOkAt cache id = true)
    (hmm : modalMemberOk modal = true)
    (hexec : ∀ id ∈ chronWindow H modal.edit_message_id,
      oracle.executeOk id = true)
    (hdef : oracle.deferOk = true) (hweb : oracle.webhookOk = true)
    (hdel : oracle.deleteOk = true) (hupd : oracle.updateOk = true) :
    executedIds (modal_submit cache modal oracle).1
      = (chronWindow H modal.edit_message_id).filter
          (fun id => !weirdAt cache id) ∧
    deletedIds (modal_submit cache modal oracle).1
      = (chronWindow H modal.edit_message_id).filter
          (fun id => !weirdAt cache id) := by
  have hwalk : unfilteredIds H.reverse modal.edit_message_id
      = (chronWindow H modal.edit_message_id).reverse :=
    unfilteredIds_eq_window_reverse H modal.edit_message_id hmem hnodup
  have hsome : ∀ id ∈ (chronWindow H modal.edit_message_id).reverse,
      (cache.message id).isSome = true := by
    intro id hid
    rcases messageOkAt_spec cache id (hok id (List.mem_reverse.mp hid))
      with ⟨m, hm, _⟩
    rw [hm]
    rfl
  have hcol : collectMessages cache (unfilteredIds H.reverse modal.edit_message_id)
      = some ((chronWindow H modal.edit_message_id).reverse.map (theMessage cache)) := by
    rw [hwalk]
    exact collectMessages_eq_map cache _ hsome
  have hurev : ((chronWindow H modal.edit_message_id).reverse.map
      (theMessage cache)).reverse
      = (chronWindow H modal.edit_message_id).map (theMessage cache) := by
    rw [List.map_reverse, List.reverse_reverse]
  have hmsgs : modalMessages ((chronWindow H modal.edit_message_id).reverse.map
      (theMessage cache))
      = ((chronWindow H modal.edit_message_id).filter (fun id =>
          !cached_message_is_weird (theMessage cache id))).map (theMessage cache) := by
    unfold modalMessages
    rw [hurev, filter_map_comm]
  have hmemW : ∀ m ∈ modalMessages ((chronWindow H modal.edit_message_id).reverse.map
      (theMessage cache)),
      ∃ id ∈ chronWindow H modal.edit_message_id, theMessage cache id = m := by
    intro m hm
    rw [hmsgs] at hm
    rcases List.mem_map.mp hm with ⟨id, hid, hmeq⟩
    exact ⟨id, (List.mem_filter.mp hid).1, hmeq⟩
  have hok' : ∀ m ∈ modalMessages ((chronWindow H modal.edit_message_id).reverse.map
      (theMessage cache)), replayOk cache m = true := by
    intro m hm
    rcases hmemW m hm with ⟨id, hid, hmeq⟩
    rcases messageOkAt_spec cache id (hok id hid) with ⟨m', _, hm'm, _, hrep⟩
    rw [← hmeq, hm'm]
    exact hrep
  have hexec' : ∀ m ∈ modalMessages ((chronWindow H modal.edit_message_id).reverse.map
      (theMessage cache)), oracle.executeOk m.id = true := by
    intro m hm
    rcases hmemW m hm with ⟨id, hid, hmeq⟩
    rcases messageOkAt_spec cache id (hok id hid) with ⟨m', _, hm'm, hid', _⟩
    rw [← hmeq, hm'm, hid']
    exact hexec id hid
  have hl2 : (runReplay cache modal modal.edit_message_id none oracle
      (modalMessages ((chronWindow H modal.edit_message_id).reverse.map
        (theMessage cache)))).2 = none :=
    runReplay_success cache modal modal.edit_message_id none oracle _ hok' hmm hexec'
  rcases runReplay_complete cache modal modal.edit_message_id none oracle _ hl2
    with ⟨hc1, _⟩
  rcases deleteStep_isSome modal.channel_id
      (modalMessages ((chronWindow H modal.edit_message_id).reverse.map
        (theMessage cache))) with ⟨dc, hd⟩
  rcases deleteStep_spec modal.channel_id _ dc hd with ⟨hdc1, hdc2⟩
  have hrep : (modalReplicate cache modal oracle none).1
      = (runReplay cache modal modal.edit_message_id none oracle
          (modalMessages ((chronWindow H modal.edit_message_id).reverse.map
            (theMessage cache)))).1
        ++ [dc, RemoteCall.update_response
            (modalReply ((chronWindow H modal.edit_message_id).reverse.map
              (theMessage cache)))] := by
    unfold modalReplicate
    rw [if_pos hweb]
    simp only [hH, hcol, hl2, hd]
    rw [if_pos hdel, if_pos hupd]
  have hms : (modal_submit cache modal oracle).1
      = RemoteCall.ack :: (modalReplicate cache modal oracle none).1 := by
    unfold modal_submit
    rw [if_pos hdef]
    simp only [hch]
    rw [if_neg (show ¬ch.kind.is_thread = true by simp [hth])]
  have htailexec : ∀ c ∈ [dc, RemoteCall.update_response
      (modalReply ((chronWindow H modal.edit_message_id).reverse.map
        (theMessage cache)))], isExecute c = false := by
    intro c hc
    rcases List.mem_cons.mp hc with rfl | hc
    · exact delete_not_execute c hdc1
    · simp only [List.mem_singleton] at hc
      subst hc
      rfl
  have hfinal : (modalMessages ((chronWindow H modal.edit_message_id).reverse.map
      (theMessage cache))).map (fun m => m.id)
      = (chronWindow H modal.edit_message_id).filter (fun id => !weirdAt cache id) := by
    rw [hmsgs, List.map_map]
    have hfid : ∀ id ∈ (chronWindow H modal.edit_message_id).filter (fun id =>
        !cached_message_is_weird (theMessage cache id)),
        ((fun m => m.id) ∘ theMessage cache) id = id := by
      intro id hid
      rcases messageOkAt_spec cache id
        (hok id (List.mem_filter.mp hid).1) with ⟨m', _, hm'm, hid', _⟩
      show (theMessage cache id).id = id
      rw [hm'm]
      exact hid'
    rw [map_id_on _ _ hfid]
    apply filter_congr_on
    intro id hid
    rcases messageOkAt_spec cache id (hok id hid) with ⟨m', hm', hm'm, _, _⟩
    rw [hm'm]
    unfold weirdAt
    simp only [hm']
  constructor
  · rw [hms, hrep, executedIds_cons_not_exec RemoteCall.ack _ rfl,
      executedIds_append, executedIds_eq_nil _ htailexec, List.append_nil, hc1]
    exact hfinal
  · rw [hms, hrep]
    have hloopexec := runReplay_all_executes cache modal modal.edit_message_id
      none oracle (modalMessages ((chronWindow H modal.edit_message_id).reverse.map
        (theMessage cache)))
    rw [show RemoteCall.ack :: ((runReplay cache modal modal.edit_message_id none
        oracle (modalMessages ((chronWindow H modal.edit_message_id).reverse.map
          (theMessage cache)))).1
        ++ [dc, RemoteCall.update_response
            (modalReply ((chronWindow H modal.edit_message_id).reverse.map
              (theMessage cache)))])
      = ([RemoteCall.ack] ++ (runReplay cache modal modal.edit_message_id none
          oracle (modalMessages ((chronWindow H modal.edit_message_id).reverse.map
            (theMessage cache)))).1)
        ++ [dc, RemoteCall.update_response
            (modalReply ((chronWindow H modal.edit_message_id).reverse.map
              (theMessage cache)))] by simp]
    have hdtail : deletedIds [dc, RemoteCall.update_response
        (modalReply ((chronWindow H modal.edit_message_id).reverse.map
          (theMessage cache)))]
        = (modalMessages ((chronWindow H modal.edit_message_id).reverse.map
            (theMessage cache))).map (fun m => m.id) := by
      simp only [deletedIds, List.flatMap_cons, List.flatMap_nil, List.append_nil]
      rw [hdc2]
      simp [deleteTargets]
    rw [deletedIds_append, deletedIds_append, deletedIds_executes _ hloopexec,
      hdtail, show deletedIds [RemoteCall.ack] = [] from rfl]
    simp only [List.nil_append, List.append_nil]
    exact hfinal

/-- Claim C1 witness: at the fixture the re-posted and deleted ids both
equal the chronological window from target 1 with the weird message 2
dropped. -/
theorem modal_replay_filtered_window_witness :
    executedIds (modal_submit exCache exModal allOkOracle).1
      = (chronWindow [1, 2, 3] exModal.edit_message_id).filter
          (fun id => !weirdAt exCache id) ∧
    deletedIds (modal_submit exCache exModal allOkOracle).1
      = (chronWindow [1, 2, 3] exModal.edit_message_id).filter
          (fun id => !weirdAt exCache id) :=
  modal_replay_filtered_window exCache exModal allOkOracle [1, 2, 3]
    { id := 10, kind := ChannelKind.GuildText, parent_id := none }
    rfl rfl rfl (by decide) (by decide) (by decide) (by decide) (by decide)
    rfl rfl rfl rfl

/-- Claim C1 counterexample: with newest-first history 3, 2, 1, target 1
and only message 2 weird, the code re-posts and deletes message 1 even
though it is older than the first weird message found while scanning back
from now, and the re-post sequence is not the contiguous window ending at
now that the truncation rule would give. -/
theorem modal_replay_truncation_counterexample :
    weirdAt exCache 2 = true ∧ weirdAt exCache 1 = false ∧
    executedIds (modal_submit exCache exModal allOkOracle).1 = [1, 3] ∧
    deletedIds (modal_submit exCache exModal allOkOracle).1 = [1, 3] ∧
    executedIds (modal_submit exCache exModal allOkOracle).1 ≠ [3] := by
  refine ⟨by decide, by decide, by decide, by decide, by decide⟩

end MessageBender
